import Mathlib

/-!
Shallow embedding of the portcullis-app sync dispatch pipeline.

The repository contains three implementations of the sync POST route
(two near-duplicates in one file, called `EtlRoute` and `EtlRouteDup`
below, and an older one called `LegacyRoute`), plus the sources route
whose `validateCredentials` function holds the per-link-type registry
of required credential fields.

External systems (the ClickHouse source, the Supabase job store, the
GitHub workflow-dispatch API) are modelled as oracles in an `Env`
record; each handler additionally returns the list of external actions
it performed, so that properties such as "no record is created" or
"no network call is made" are statements about the action trace.
-/

set_option maxRecDepth 4096

namespace Portcullis

/-- JSON values as delivered by `request.json()` / sent by the handlers.
Numbers are rationals (the validation logic only type-checks them, it
performs no arithmetic); there is no NaN and no undefined — an absent
object key plays the role of `undefined`. -/
inductive Json where
  | null
  | bool (b : Bool)
  | num (q : Rat)
  | str (s : String)
  | arr (items : List Json)
  | obj (fields : List (String × Json))

/-- Last-occurrence-wins lookup, matching the behaviour of `JSON.parse`
on duplicate keys and of JS property reads. -/
def jsLookup (fs : List (String × Json)) (k : String) : Option Json :=
  fs.foldl (fun acc p => if p.1 = k then some p.2 else acc) none

/-- Property read `o[k]` on a value already known to be an object wrapper;
on non-objects a JS property read yields `undefined` (here `none`). -/
def jsGet (j : Json) (k : String) : Option Json :=
  match j with
  | .obj fs => jsLookup fs k
  | _ => none

/-- Whether a JSON object carries the given key. -/
def Json.hasKey (j : Json) (k : String) : Bool :=
  match j with
  | .obj fs => fs.any (fun p => p.1 = k)
  | _ => false

/-- JavaScript truthiness of a JSON value (no NaN in the model). -/
def jsTruthy : Json → Bool
  | .null => false
  | .bool b => b
  | .num q => q != 0
  | .str s => s != ""
  | .arr _ => true
  | .obj _ => true

/-- JS object-assignment `o[k] = v`: overwrite in place when the key is
present, otherwise append (insertion order preserved). -/
def objSet (o : List (String × Json)) (k : String) (v : Json) : List (String × Json) :=
  if o.any (fun p => p.1 = k) then
    o.map (fun p => if p.1 = k then (k, v) else p)
  else
    o ++ [(k, v)]

/-- JavaScript `String.prototype.trim` (structural, so that it
evaluates inside the kernel). -/
def jsTrim (s : String) : String :=
  String.mk (((s.toList.dropWhile Char.isWhitespace).reverse.dropWhile Char.isWhitespace).reverse)

/-- JavaScript `String.prototype.toLowerCase` (ASCII, structural). -/
def jsToLowerCase (s : String) : String :=
  String.mk (s.toList.map Char.toLower)

def jsonEscapeChar (c : Char) : String :=
  if c = '\\' then "\\\\" else if c = '"' then "\\\"" else String.singleton c

/-- Minimal JSON string escaping (quote and backslash; the payloads in
the pipeline contain no control characters). -/
def jsonEscape (s : String) : String :=
  String.join (s.toList.map jsonEscapeChar)

def jsonQuote (s : String) : String :=
  "\"" ++ jsonEscape s ++ "\""

/-- Number rendering for serialization; agrees with the JavaScript
rendering on integers, the only numbers the pipeline serializes. -/
def ratToJsonString (q : Rat) : String :=
  if q.den = 1 then toString q.num else toString q.num ++ "/" ++ toString q.den

mutual

/-- `JSON.stringify` on the model. -/
def Json.stringify : Json → String
  | .null => "null"
  | .bool b => cond b "true" "false"
  | .num q => ratToJsonString q
  | .str s => jsonQuote s
  | .arr items => "[" ++ stringifyItems items ++ "]"
  | .obj fields => "\x7b" ++ stringifyFields fields ++ "\x7d"

def stringifyItems : List Json → String
  | [] => ""
  | [x] => Json.stringify x
  | x :: y :: xs => Json.stringify x ++ "," ++ stringifyItems (y :: xs)

def stringifyFields : List (String × Json) → String
  | [] => ""
  | [(k, v)] => jsonQuote k ++ ":" ++ Json.stringify v
  | (k, v) :: f :: fs => jsonQuote k ++ ":" ++ Json.stringify v ++ "," ++ stringifyFields (f :: fs)

end

example : Json.stringify (.obj []) = "\x7b\x7d" := by decide
example : Json.stringify (.obj [("a", .num 1), ("b", .arr [.str "x"])]) = "\x7b\"a\":1,\"b\":[\"x\"]\x7d" := by decide

/-! ## The zod request schema

Model of `requestSchema.safeParse` from the validated route:

    const destinationConfigSchema = z.object({
        type: z.string(),
        credentials: z.record(z.any()),
        options: z.object({
            mode: z.enum(["stream", "batch"]).default("stream"),
            batchSize: z.number().default(10000),
        }).default({ mode: "stream", batchSize: 10000 }),
    }).strict();

    const requestSchema = z.object({
        organization: z.string().min(1),
        internal_warehouse: z.string().min(1),
        link_type: z.string().min(1),
        internal_credentials: z.record(z.any()),
        destination_config: destinationConfigSchema,
    }).strict();

Note the inner `options` object is NOT strict (unknown keys are
stripped) and `batchSize` is checked only to be a number. -/

/-- A zod validation issue: the path of the offending field and a message. -/
structure Issue where
  path : List String
  message : String
deriving Repr, DecidableEq

def exIssues {T : Type} : Except Issue T → List Issue
  | .ok _ => []
  | .error i => [i]

def exIssuesL {T : Type} : Except (List Issue) T → List Issue
  | .ok _ => []
  | .error is => is

/-- `z.string().min(1)` on object field `k`. -/
def parseStr1 (fs : List (String × Json)) (k : String) : Except Issue String :=
  match jsLookup fs k with
  | none => .error ⟨[k], "Required"⟩
  | some (.str s) =>
      if s.length ≥ 1 then .ok s
      else .error ⟨[k], "String must contain at least 1 character(s)"⟩
  | some _ => .error ⟨[k], "Expected string, received other"⟩

/-- `z.record(z.any())` on object field `k` (the value must be a plain
object; its contents are kept verbatim). -/
def parseRecord (fs : List (String × Json)) (k : String) : Except Issue Json :=
  match jsLookup fs k with
  | none => .error ⟨[k], "Required"⟩
  | some (.obj o) => .ok (.obj o)
  | some _ => .error ⟨[k], "Expected record, received other"⟩

/-- `z.string()` (no minimum) on a field of `destination_config`. -/
def parseStr (path : List String) (fs : List (String × Json)) (k : String) : Except Issue String :=
  match jsLookup fs k with
  | none => .error ⟨path ++ [k], "Required"⟩
  | some (.str s) => .ok s
  | some _ => .error ⟨path ++ [k], "Expected string, received other"⟩

/-- Resolved `options` object after defaulting. -/
structure DestOptions where
  mode : String
  batchSize : Rat
deriving Repr, DecidableEq

/-- Resolved `destination_config` after defaulting. -/
structure DestinationConfig where
  type : String
  credentials : Json
  options : DestOptions

/-- The `.strict()` unknown-key check: one issue naming the keys outside
the recognized set, or nothing. -/
def strictIssues (path : List String) (fs : List (String × Json)) (allowed : List String) : List Issue :=
  let unknown := (fs.map (fun p => p.1)).filter (fun k => ¬ allowed.contains k)
  if unknown.isEmpty then []
  else [⟨path, "Unrecognized key(s) in object: " ++ String.intercalate ", " unknown⟩]

/-- `mode: z.enum(["stream","batch"]).default("stream")`. -/
def parseMode (fs : List (String × Json)) : Except Issue String :=
  match jsLookup fs "mode" with
  | none => .ok "stream"
  | some (.str "stream") => .ok "stream"
  | some (.str "batch") => .ok "batch"
  | some _ => .error ⟨["destination_config", "options", "mode"], "Invalid enum value"⟩

/-- `batchSize: z.number().default(10000)`: any number is accepted. -/
def parseBatchSize (fs : List (String × Json)) : Except Issue Rat :=
  match jsLookup fs "batchSize" with
  | none => .ok 10000
  | some (.num q) => .ok q
  | some _ => .error ⟨["destination_config", "options", "batchSize"], "Expected number, received other"⟩

/-- The `options` sub-object with its object-level default. Not strict:
unrecognized keys inside `options` are stripped, not rejected. -/
def parseOptions (fs : List (String × Json)) : Except (List Issue) DestOptions :=
  match jsLookup fs "options" with
  | none => .ok ⟨"stream", 10000⟩
  | some (.obj o) =>
      match parseMode o, parseBatchSize o with
      | .ok m, .ok b => .ok ⟨m, b⟩
      | em, eb => .error (exIssues em ++ exIssues eb)
  | some _ => .error [⟨["destination_config", "options"], "Expected object, received other"⟩]

/-- `destinationConfigSchema` applied to the `destination_config` field. -/
def parseDestConfig (fs : List (String × Json)) : Except (List Issue) DestinationConfig :=
  match jsLookup fs "destination_config" with
  | none => .error [⟨["destination_config"], "Required"⟩]
  | some (.obj o) =>
      match parseStr ["destination_config"] o "type",
            parseRecord o "credentials",
            parseOptions o with
      | .ok t, .ok c, .ok op =>
          if (strictIssues ["destination_config"] o ["type", "credentials", "options"]).isEmpty
          then .ok ⟨t, c, op⟩
          else .error (strictIssues ["destination_config"] o ["type", "credentials", "options"])
      | et, ec, eo =>
          .error (exIssues et ++ exIssues ec ++ exIssuesL eo ++
                  strictIssues ["destination_config"] o ["type", "credentials", "options"])
  | some _ => .error [⟨["destination_config"], "Expected object, received other"⟩]

/-- The request body after successful validation (defaults resolved). -/
structure ParsedBody where
  organization : String
  internal_warehouse : String
  link_type : String
  internal_credentials : Json
  destination_config : DestinationConfig

/-- `requestSchema.safeParse` on the raw body. Field issues are
collected rather than short-circuited, as zod does. -/
def safeParse (raw : Json) : Except (List Issue) ParsedBody :=
  match raw with
  | .obj fs =>
      match parseStr1 fs "organization",
            parseStr1 fs "internal_warehouse",
            parseStr1 fs "link_type",
            parseRecord fs "internal_credentials",
            parseDestConfig fs with
      | .ok o, .ok w, .ok l, .ok c, .ok d =>
          if (strictIssues [] fs
              ["organization", "internal_warehouse", "link_type", "internal_credentials",
               "destination_config"]).isEmpty
          then .ok ⟨o, w, l, c, d⟩
          else .error (strictIssues [] fs
            ["organization", "internal_warehouse", "link_type", "internal_credentials",
             "destination_config"])
      | eo, ew, el, ec, ed =>
          .error (exIssues eo ++ exIssues ew ++ exIssues el ++ exIssues ec ++ exIssuesL ed ++
                  strictIssues [] fs
                    ["organization", "internal_warehouse", "link_type", "internal_credentials",
                     "destination_config"])
  | _ => .error [⟨[], "Expected object, received other"⟩]

/-- Render the issue list the way the route embeds
`validationResult.error.issues` in the response body. -/
def issuesToJson (issues : List Issue) : Json :=
  .arr (issues.map (fun i => .obj [("path", .arr (i.path.map Json.str)), ("message", .str i.message)]))

/-! ## The per-link-type credential registry (sources route)

`validateCredentials(type, credentials)` from the sources endpoint:

    const requiredFields: { [key: string]: string[] } = {
      snowflake: ['account', 'username', 'password', 'warehouse', 'database', 'schema'],
      bigquery: ['project_id', 'private_key', 'client_email'],
      redshift: ['host', 'port', 'database', 'user', 'password'],
      clickhouse: ['host', 'port', 'database', 'user', 'password'],
    };
    const fields = requiredFields[type];
    if (!fields) return false;
    return fields.every(field => credentials[field] && credentials[field].trim() !== '');

A field value that is truthy but not a string has no `.trim` method, so
the function can also throw a TypeError; the result type `Except String
Bool` carries that possibility. -/

namespace SourcesRoute

def requiredFields (ty : String) : Option (List String) :=
  if ty = "snowflake" then some ["account", "username", "password", "warehouse", "database", "schema"]
  else if ty = "bigquery" then some ["project_id", "private_key", "client_email"]
  else if ty = "redshift" then some ["host", "port", "database", "user", "password"]
  else if ty = "clickhouse" then some ["host", "port", "database", "user", "password"]
  else none

/-- `credentials[field] && credentials[field].trim() !== ''` for one field. -/
def credFieldOk (credentials : Json) (f : String) : Except String Bool :=
  match credentials with
  | .null => .error "TypeError: Cannot read properties of null"
  | c =>
      match jsGet c f with
      | none => .ok false
      | some v =>
          if jsTruthy v then
            match v with
            | .str s => .ok (jsTrim s != "")
            | _ => .error "TypeError: trim is not a function"
          else .ok false

/-- `fields.every(...)`: short-circuits on the first falsy field. -/
def credFieldsAll (credentials : Json) : List String → Except String Bool
  | [] => .ok true
  | f :: fs =>
      match credFieldOk credentials f with
      | .error e => .error e
      | .ok false => .ok false
      | .ok true => credFieldsAll credentials fs

/-- `validateCredentials(type, credentials)`. A non-string `type` indexes
the registry with a key none of the four entries match. -/
def validateCredentials (ty : Json) (credentials : Json) : Except String Bool :=
  let fields :=
    match ty with
    | .str s => requiredFields s
    | _ => none
  match fields with
  | none => .ok false
  | some fs => credFieldsAll credentials fs

end SourcesRoute

example : SourcesRoute.validateCredentials (.str "clickhouse") (.obj []) = .ok false := rfl
example : SourcesRoute.validateCredentials (.str "clickhouse")
    (.obj [("host", .str "h"), ("port", .str "9000"), ("database", .str "d"),
           ("user", .str "u"), ("password", .str "p")]) = .ok true := rfl
example : SourcesRoute.validateCredentials (.str "mysql") (.obj [("host", .str "h")]) = .ok false := rfl

/-! ## The sync pipeline: environments, actions, handlers

External collaborators are oracles. The ClickHouse oracle is indexed by
a call counter so that two temporally distinct `SHOW TABLES` queries in
one request may observe different outcomes (the handler issues the
query twice). Every handler also returns the list of external actions
it performed, in order. -/

/-- One row of the `syncs` insert issued by the two routes in the main
file (the payload of `supabase.from('syncs').insert({...})`). -/
structure SyncInsert where
  organization : String
  internal_warehouse : String
  link_type : String
  internal_credentials : Json
  destination_config : DestinationConfig

/-- Outcome of `.insert({...}).select().single()`: a storage error, no
row returned, or a created row (only its generated `id` is consumed). -/
inductive InsertOutcome where
  | err (message : String)
  | noData
  | ok (id : String)

/-- The `workflow_dispatch` request sent through Octokit. -/
structure DispatchPayload where
  owner : String
  repo : String
  workflow_id : String
  ref : String
  org_id : String
  data : String

/-- An external action performed by a sync handler. -/
inductive Action where
  | sourceQuery (credentials : Json) (query : String)
  | dbInsert (row : SyncInsert)
  | dbDelete (table : String) (id : String)
  | workflowDispatch (payload : DispatchPayload)

/-- Oracle for the external world of the two sync routes in the main
file. `showTables` takes the call index (0 = the query inside
`getTableData`, 1 = the handler's direct `getAllTables` call). -/
structure Env where
  showTables : Nat → Json → Except String (List String)
  tableQuery : Json → String → Except String Json
  insert : SyncInsert → InsertOutcome
  dispatch : DispatchPayload → Except String Unit

/-- An HTTP response: status and JSON body. -/
structure Response where
  status : Nat
  body : Json

def selectQuery (table : String) : String :=
  "SELECT * FROM " ++ table ++ " FORMAT JSONCompactEachRowWithNamesAndTypes"

/-- The catch-all response `{ success: false, syncId, error }, 500`
shared by all three routes' outer catch blocks. -/
def catchResp (syncId : Json) (msg : String) : Response :=
  ⟨500, .obj [("success", .bool false), ("syncId", syncId), ("error", .str msg)]⟩

def validationFailedResponse (issues : List Issue) : Response :=
  ⟨400, .obj [("success", .bool false), ("error", .str "Validation failed"), ("details", issuesToJson issues)]⟩

def dbErrorResponse (details : String) : Response :=
  ⟨500, .obj [("success", .bool false), ("error", .str "Database error"), ("details", .str details)]⟩

def noDataResponse : Response :=
  ⟨500, .obj [("success", .bool false), ("error", .str "Failed to create sync record: No data returned")]⟩

def dispatchErrorResponse (syncId : String) (details : String) : Response :=
  ⟨422, .obj [("success", .bool false), ("syncId", .str syncId),
              ("error", .str "GitHub API error"), ("details", .str details)]⟩

def successResponse (syncId : String) : Response :=
  ⟨200, .obj [("success", .bool true), ("syncId", .str syncId),
              ("message", .str "ETL process and container provisioning initiated successfully")]⟩

/-! ## Validated sync route (first implementation in the main route file)

    export async function POST(request: NextRequest) {
        ...
        const validationResult = requestSchema.safeParse(rawBody);
        if (!validationResult.success) { ...400... }
        const body = validationResult.data;
        const data = await getTableData(body.internal_credentials);
        const tables = await getAllTables(body.internal_credentials);
        const linkType = body.link_type.toLowerCase();
        ...insert into 'syncs'... ...octokit workflow dispatch... }

Everything, including both extraction calls, sits inside the outer
try/catch, whose handler returns `{success:false, syncId, error}, 500`.
Thrown errors are modelled as their message strings; `request.json()`
is modelled as an `Except String Json` input (a parse rejection is the
thrown error). -/

namespace EtlRoute

/-- `getAllTables(credentials)`: connect with the credential fields and
run `SHOW TABLES`; errors are rethrown. `call` is the temporal index of
this query in the request, so distinct calls may observe different
outcomes. -/
def getAllTables (env : Env) (call : Nat) (credentials : Json) :
    Except String (List String) × List Action :=
  (env.showTables call credentials, [Action.sourceQuery credentials "SHOW TABLES"])

/-- The `for (const table of tables)` loop of `getTableData`, filling
`allTableData[table]`; the first failing query fails the whole
extraction. -/
def fetchAllTables (env : Env) (credentials : Json) :
    List String → List (String × Json) → Except String (List (String × Json)) × List Action
  | [], acc => (.ok acc, [])
  | t :: ts, acc =>
      match env.tableQuery credentials (selectQuery t) with
      | .error e => (.error e, [Action.sourceQuery credentials (selectQuery t)])
      | .ok d =>
          match fetchAllTables env credentials ts (objSet acc t d) with
          | (r, rest) => (r, Action.sourceQuery credentials (selectQuery t) :: rest)

/-- `getTableData(credentials)`: list the tables, then pull each table's
full contents into `allTableData`. -/
def getTableData (env : Env) (call : Nat) (credentials : Json) :
    Except String (List (String × Json)) × List Action :=
  match getAllTables env call credentials with
  | (.error e, a) => (.error e, a)
  | (.ok tables, a) =>
      match fetchAllTables env credentials tables [] with
      | (r, b) => (r, a ++ b)

/-- The `syncs` insert row built by the handler (with the normalized
`linkType`). -/
def rowOf (body : ParsedBody) : SyncInsert :=
  ⟨body.organization, body.internal_warehouse, jsToLowerCase body.link_type,
   body.internal_credentials, body.destination_config⟩

/-- The Octokit `workflow_dispatch` payload built by the handler. -/
def payloadOf (body : ParsedBody) (data : List (String × Json)) : DispatchPayload :=
  ⟨"portcullis-co", "portcullis-app", "deploy-bulker.yml", "bulker",
   body.organization, Json.stringify (.obj data)⟩

/-- The POST handler of the validated route. -/
def POST (env : Env) (raw : Except String Json) : Response × List Action :=
  match raw with
  | .error e => (catchResp .null e, [])
  | .ok rawBody =>
      match safeParse rawBody with
      | .error issues => (validationFailedResponse issues, [])
      | .ok body =>
          match getTableData env 0 body.internal_credentials with
          | (.error e, a1) => (catchResp .null e, a1)
          | (.ok data, a1) =>
              match getAllTables env 1 body.internal_credentials with
              | (.error e, a2) => (catchResp .null e, a1 ++ a2)
              | (.ok _tables, a2) =>
                  match env.insert (rowOf body) with
                  | .err m => (dbErrorResponse m, a1 ++ a2 ++ [.dbInsert (rowOf body)])
                  | .noData => (noDataResponse, a1 ++ a2 ++ [.dbInsert (rowOf body)])
                  | .ok id =>
                      match env.dispatch (payloadOf body data) with
                      | .error m =>
                          (dispatchErrorResponse id m,
                           a1 ++ a2 ++ [.dbInsert (rowOf body), .workflowDispatch (payloadOf body data)])
                      | .ok _ =>
                          (successResponse id,
                           a1 ++ a2 ++ [.dbInsert (rowOf body), .workflowDispatch (payloadOf body data)])

end EtlRoute

/-- Rows passed to the `syncs` insert in a trace. -/
def insertedRows : List Action → List SyncInsert
  | [] => []
  | .dbInsert r :: tr => r :: insertedRows tr
  | _ :: tr => insertedRows tr

/-- Workflow-dispatch payloads in a trace. -/
def dispatchedPayloads : List Action → List DispatchPayload
  | [] => []
  | .workflowDispatch p :: tr => p :: dispatchedPayloads tr
  | _ :: tr => dispatchedPayloads tr

/-- Whether a trace contains any query against the source system. -/
def sourceQueried : List Action → Bool
  | [] => false
  | .sourceQuery _ _ :: _ => true
  | _ :: tr => sourceQueried tr

/-- Whether a trace contains any delete against the job store. -/
def deletePerformed : List Action → Bool
  | [] => false
  | .dbDelete _ _ :: _ => true
  | _ :: tr => deletePerformed tr

/-- A trace that touches only the source system (no job-store write, no
dispatch). -/
def onlySourceQueries : List Action → Bool
  | [] => true
  | .sourceQuery _ _ :: tr => onlySourceQueries tr
  | _ :: _ => false

/-! ## Duplicate sync route (second implementation in the same file)

    export async function POST(request: NextRequest) {
        const supabase = createClient();
        let syncId: string | null = null;
        const data = await getTableData(request);   // ← before the try block
        try { ... }

Its `getTableData(request)` re-parses the request body and builds the
ClickHouse client from `body.internal_credentials.{host,username,
password,database}` before querying; a failure there is raised before
the `try` and therefore leaves the handler as an unhandled rejection,
modelled as the `.error` result of the handler. Inside the try, the
order is validate → insert → `getAllTables(request)` → dispatch. -/

namespace EtlRouteDup

/-- `body.internal_credentials` as read while constructing the client:
a missing or null `internal_credentials` makes the `.host` read throw. -/
def credsOf (body : Json) : Except String Json :=
  match body with
  | .obj fs =>
      match jsLookup fs "internal_credentials" with
      | none => .error "TypeError: Cannot read properties of undefined (reading 'host')"
      | some .null => .error "TypeError: Cannot read properties of null (reading 'host')"
      | some c => .ok c
  | .null => .error "TypeError: Cannot read properties of null (reading 'internal_credentials')"
  | _ => .error "TypeError: Cannot read properties of undefined (reading 'host')"

/-- `getAllTables(request)`: parse the body, build the client, `SHOW
TABLES`. Identical queries to the validated route's version once the
credentials are extracted. -/
def getAllTables (env : Env) (call : Nat) (raw : Except String Json) :
    Except String (List String) × List Action :=
  match raw with
  | .error e => (.error e, [])
  | .ok body =>
      match credsOf body with
      | .error e => (.error e, [])
      | .ok creds => EtlRoute.getAllTables env call creds

/-- `getTableData(request)`: parse the body, extract the credentials,
then run the same introspection-plus-per-table extraction. -/
def getTableData (env : Env) (raw : Except String Json) :
    Except String (List (String × Json)) × List Action :=
  match raw with
  | .error e => (.error e, [])
  | .ok body =>
      match credsOf body with
      | .error e => (.error e, [])
      | .ok creds => EtlRoute.getTableData env 0 creds

/-- The POST handler of the duplicate route. The first component is
`.error` exactly when an error escapes the handler unhandled. -/
def POST (env : Env) (raw : Except String Json) : Except String Response × List Action :=
  match getTableData env raw with
  | (.error e, a0) => (.error e, a0)
  | (.ok data, a0) =>
      match raw with
      | .error _ => (.ok (catchResp .null "Invalid JSON in request body"), a0)
      | .ok rawBody =>
          match safeParse rawBody with
          | .error issues => (.ok (validationFailedResponse issues), a0)
          | .ok body =>
              match env.insert (EtlRoute.rowOf body) with
              | .err m => (.ok (dbErrorResponse m), a0 ++ [.dbInsert (EtlRoute.rowOf body)])
              | .noData => (.ok noDataResponse, a0 ++ [.dbInsert (EtlRoute.rowOf body)])
              | .ok id =>
                  match getAllTables env 1 raw with
                  | (.error e, a2) =>
                      (.ok (catchResp (.str id) e), a0 ++ [.dbInsert (EtlRoute.rowOf body)] ++ a2)
                  | (.ok _tables, a2) =>
                      match env.dispatch (EtlRoute.payloadOf body data) with
                      | .error m =>
                          (.ok (dispatchErrorResponse id m),
                           a0 ++ [.dbInsert (EtlRoute.rowOf body)] ++ a2
                              ++ [.workflowDispatch (EtlRoute.payloadOf body data)])
                      | .ok _ =>
                          (.ok (successResponse id),
                           a0 ++ [.dbInsert (EtlRoute.rowOf body)] ++ a2
                              ++ [.workflowDispatch (EtlRoute.payloadOf body data)])

end EtlRouteDup

/-! ## Legacy sync route (separate older route file)

    const body = await request.json();
    const linkType = body.link_type.toLowerCase();   // computed, then unused
    ...insert({ ..., link_type: body.link_type, destination_config:
       body.destinationConfig, status: 'active' })...
    if (syncError) throw new Error(`Failed to create sync record: ...`);
    syncId = syncData.id;
    const provisionBulker = await fetch(...dispatches..., {
        body: JSON.stringify(body.destinationConfig) });
    if (!provisionBulker.ok) throw new Error(`Failed to send data to Bulker: ...`);

No validation; the whole body is inside one try whose catch returns
`{success:false, syncId, error}, 500`. -/

namespace LegacyRoute

/-- The raw `syncs` insert row of the legacy route (unvalidated field
reads; `none` is JavaScript `undefined`). -/
structure InsertRow where
  organization : Option Json
  internal_warehouse : Option Json
  link_type : Option Json
  internal_credentials : Option Json
  destination_config : Option Json
  status : Option Json

/-- A `fetch` response as consumed by the route (`ok` and `statusText`). -/
structure FetchResponse where
  ok : Bool
  statusText : String

inductive LegacyAction where
  | dbInsert (row : InsertRow)
  | dispatchFetch (body : Option String)

/-- Oracle for the legacy route's external world: the job store and the
workflow-dispatch `fetch` (whose argument is the serialized
`body.destinationConfig`, absent when that field is undefined). -/
structure LegacyEnv where
  insert : InsertRow → InsertOutcome
  dispatchFetch : Option String → Except String FetchResponse

/-- `body.link_type.toLowerCase()`: throws unless `body` is an object
whose `link_type` is a string. -/
def linkTypeOf (body : Json) : Except String String :=
  match body with
  | .obj fs =>
      match jsLookup fs "link_type" with
      | some (.str s) => .ok (jsToLowerCase s)
      | some _ => .error "TypeError: body.link_type.toLowerCase is not a function"
      | none => .error "TypeError: Cannot read properties of undefined (reading 'toLowerCase')"
  | _ => .error "TypeError: Cannot read properties of undefined (reading 'toLowerCase')"

/-- The POST handler of the legacy route. -/
def POST (env : LegacyEnv) (raw : Except String Json) : Response × List LegacyAction :=
  match raw with
  | .error e => (catchResp .null e, [])
  | .ok body =>
      match linkTypeOf body with
      | .error e => (catchResp .null e, [])
      | .ok _linkType =>
          let row : InsertRow :=
            ⟨jsGet body "organization", jsGet body "internal_warehouse",
             jsGet body "link_type", jsGet body "internal_credentials",
             jsGet body "destinationConfig", some (.str "active")⟩
          match env.insert row with
          | .err m =>
              (catchResp .null ("Failed to create sync record: " ++ m), [.dbInsert row])
          | .noData =>
              (catchResp .null "TypeError: Cannot read properties of null (reading 'id')",
               [.dbInsert row])
          | .ok id =>
              let fetchBody := (jsGet body "destinationConfig").map Json.stringify
              match env.dispatchFetch fetchBody with
              | .error e =>
                  (catchResp (.str id) e, [.dbInsert row, .dispatchFetch fetchBody])
              | .ok resp =>
                  if resp.ok then
                    (⟨200, .obj [("success", .bool true), ("syncId", .str id),
                       ("message", .str "ETL process and container provisioning completed successfully")]⟩,
                     [.dbInsert row, .dispatchFetch fetchBody])
                  else
                    (catchResp (.str id) ("Failed to send data to Bulker: " ++ resp.statusText),
                     [.dbInsert row, .dispatchFetch fetchBody])

/-- Rows passed to the legacy route's `syncs` insert. -/
def legacyInsertedRows : List LegacyAction → List InsertRow
  | [] => []
  | .dbInsert r :: tr => r :: legacyInsertedRows tr
  | _ :: tr => legacyInsertedRows tr

end LegacyRoute

/-! ## Concrete fixtures (the end-to-end scenario of the specification) -/

def sampleCredentials : Json :=
  .obj [("host", .str "h"), ("username", .str "u"), ("password", .str "p"), ("database", .str "d")]

def sampleDestConfig : Json :=
  .obj [("type", .str "warehouse"), ("credentials", .obj [("dest", .str "x")])]

def sampleRequest : Json :=
  .obj [("organization", .str "org_1"), ("internal_warehouse", .str "wh_1"),
        ("link_type", .str "ClickHouse"), ("internal_credentials", sampleCredentials),
        ("destination_config", sampleDestConfig)]

def sampleBody : ParsedBody :=
  ⟨"org_1", "wh_1", "ClickHouse", sampleCredentials,
   ⟨"warehouse", .obj [("dest", .str "x")], ⟨"stream", 10000⟩⟩⟩

example : safeParse sampleRequest = .ok sampleBody := rfl

/-- An environment in which every external call succeeds: the source
exposes one empty table `events`, the insert returns id `sync_1`, the
workflow dispatch is accepted. -/
def happyEnv : Env where
  showTables := fun _ _ => .ok ["events"]
  tableQuery := fun _ _ => .ok (.obj [])
  insert := fun _ => .ok "sync_1"
  dispatch := fun _ => .ok ()

example :
    (EtlRoute.POST happyEnv (.ok sampleRequest)).1 = successResponse "sync_1" := rfl
example :
    (dispatchedPayloads (EtlRoute.POST happyEnv (.ok sampleRequest)).2).map (fun p => p.data)
      = ["\x7b\"events\":\x7b\x7d\x7d"] := rfl
example :
    (insertedRows (EtlRoute.POST happyEnv (.ok sampleRequest)).2).map (fun r => r.link_type)
      = ["clickhouse"] := rfl

/-- An environment in which the source system is unreachable: every
query against it fails, everything downstream would succeed. -/
def downSourceEnv : Env where
  showTables := fun _ _ => .error "Connection failed"
  tableQuery := fun _ _ => .error "Connection failed"
  insert := fun _ => .ok "sync_1"
  dispatch := fun _ => .ok ()

/-! ## Shared lemmas about traces and the extraction stage -/

theorem onlySourceQueries_append (a b : List Action) :
    onlySourceQueries (a ++ b) = (onlySourceQueries a && onlySourceQueries b) := by
  induction a with
  | nil => simp [onlySourceQueries]
  | cons x xs ih => cases x <;> simp [onlySourceQueries, ih]

theorem insertedRows_of_onlySource (tr : List Action) (h : onlySourceQueries tr = true) :
    insertedRows tr = [] := by
  induction tr with
  | nil => rfl
  | cons x xs ih => cases x <;> simp_all [onlySourceQueries, insertedRows]

theorem dispatchedPayloads_of_onlySource (tr : List Action) (h : onlySourceQueries tr = true) :
    dispatchedPayloads tr = [] := by
  induction tr with
  | nil => rfl
  | cons x xs ih => cases x <;> simp_all [onlySourceQueries, dispatchedPayloads]

theorem deletePerformed_of_onlySource (tr : List Action) (h : onlySourceQueries tr = true) :
    deletePerformed tr = false := by
  induction tr with
  | nil => rfl
  | cons x xs ih => cases x <;> simp_all [onlySourceQueries, deletePerformed]

theorem deletePerformed_append (a b : List Action) :
    deletePerformed (a ++ b) = (deletePerformed a || deletePerformed b) := by
  induction a with
  | nil => simp [deletePerformed]
  | cons x xs ih => cases x <;> simp [deletePerformed, ih]

theorem insertedRows_append (a b : List Action) :
    insertedRows (a ++ b) = insertedRows a ++ insertedRows b := by
  induction a with
  | nil => simp [insertedRows]
  | cons x xs ih => cases x <;> simp [insertedRows, ih]

theorem dispatchedPayloads_append (a b : List Action) :
    dispatchedPayloads (a ++ b) = dispatchedPayloads a ++ dispatchedPayloads b := by
  induction a with
  | nil => simp [dispatchedPayloads]
  | cons x xs ih => cases x <;> simp [dispatchedPayloads, ih]

theorem onlySource_fetchAllTables (env : Env) (creds : Json) :
    ∀ (ts : List String) (acc : List (String × Json)),
      onlySourceQueries (EtlRoute.fetchAllTables env creds ts acc).2 = true := by
  intro ts
  induction ts with
  | nil => intro acc; rfl
  | cons t ts ih =>
      intro acc
      simp only [EtlRoute.fetchAllTables]
      cases env.tableQuery creds (selectQuery t) with
      | error e => rfl
      | ok d =>
          have := ih (objSet acc t d)
          rcases hf : EtlRoute.fetchAllTables env creds ts (objSet acc t d) with ⟨r, rest⟩
          rw [hf] at this
          simpa [onlySourceQueries, hf] using this

/-- A successfully validated body's `internal_credentials` is the raw
body's `internal_credentials` field, and it is a JSON object; hence the
duplicate route's client construction extracts exactly it. -/
theorem credsOf_of_safeParse (raw : Json) (body : ParsedBody)
    (hp : safeParse raw = .ok body) :
    EtlRouteDup.credsOf raw = .ok body.internal_credentials := by
  unfold safeParse at hp
  split at hp
  · rename_i fs
    split at hp
    · rename_i o w l c d h1 h2 h3 h4 h5
      split at hp
      · cases hp
        rcases hl : jsLookup fs "internal_credentials" with _ | v
        · rw [parseRecord, hl] at h4; exact absurd h4 (by simp)
        · cases v <;> rw [parseRecord, hl] at h4 <;>
            simp only [Except.ok.injEq] at h4 <;> first
          | exact absurd h4 (by simp)
          | (rw [← h4]; simp [EtlRouteDup.credsOf, hl])
      · exact absurd hp (by simp)
    · exact absurd hp (by simp)
  · exact absurd hp (by simp)

theorem onlySource_getTableData (env : Env) (call : Nat) (creds : Json) :
    onlySourceQueries (EtlRoute.getTableData env call creds).2 = true := by
  simp only [EtlRoute.getTableData, EtlRoute.getAllTables]
  cases env.showTables call creds with
  | error e => rfl
  | ok tables =>
      have := onlySource_fetchAllTables env creds tables []
      rcases hf : EtlRoute.fetchAllTables env creds tables [] with ⟨r, b⟩
      rw [hf] at this
      simpa [hf, onlySourceQueries_append, onlySourceQueries] using this


/-! ## Claim C1 -/

/-- Claim C1 (amended): when source introspection or snapshot
extraction fails, no insert into the job store is performed by either
sync implementation in the main route file, so no SyncJob record is
created and persistence only ever follows a complete extraction. The
validated implementation responds with the extraction error, status
500 and `syncId: null`; the duplicate implementation, whose extraction
call precedes its try block, instead lets the error escape the handler
unhandled (it produces no response). -/
theorem c1_extraction_failure_no_record (env : Env) (raw : Json) (body : ParsedBody) (e : String)
    (hp : safeParse raw = .ok body)
    (he : (EtlRoute.getTableData env 0 body.internal_credentials).1 = .error e) :
    (EtlRoute.POST env (.ok raw)).1 = catchResp .null e
    ∧ insertedRows (EtlRoute.POST env (.ok raw)).2 = []
    ∧ (EtlRouteDup.POST env (.ok raw)).1 = .error e
    ∧ insertedRows (EtlRouteDup.POST env (.ok raw)).2 = [] := by
  have hcreds := credsOf_of_safeParse raw body hp
  have hOnly := onlySource_getTableData env 0 body.internal_credentials
  rcases hgt : EtlRoute.getTableData env 0 body.internal_credentials with ⟨r, tr⟩
  rw [hgt] at he hOnly
  simp only at he
  subst he
  have hnil := insertedRows_of_onlySource tr hOnly
  refine ⟨?_, ?_, ?_, ?_⟩
  · simp [EtlRoute.POST, hp, hgt]
  · simp [EtlRoute.POST, hp, hgt, hnil]
  · simp [EtlRouteDup.POST, EtlRouteDup.getTableData, hcreds, hgt]
  · simp [EtlRouteDup.POST, EtlRouteDup.getTableData, hcreds, hgt, hnil]

/-- Claim C1 (counterexample): with an unreachable source, the
duplicate implementation does not respond with an extraction error (or
any response at all): the failure leaves the handler as an unhandled
fault, contradicting "the endpoint responds with an extraction error
carrying no job id". -/
theorem c1_counterexample :
    (EtlRouteDup.POST downSourceEnv (.ok sampleRequest)).1 = .error "Connection failed"
    ∧ (EtlRouteDup.POST downSourceEnv (.ok sampleRequest)).1
        ≠ .ok (catchResp .null "Connection failed") := by
  refine ⟨rfl, ?_⟩
  intro h
  exact Except.noConfusion h

/-- Claim C1 (witness for the amended theorem). -/
theorem c1_witness :
    (EtlRoute.POST downSourceEnv (.ok sampleRequest)).1 = catchResp .null "Connection failed"
    ∧ insertedRows (EtlRoute.POST downSourceEnv (.ok sampleRequest)).2 = []
    ∧ (EtlRouteDup.POST downSourceEnv (.ok sampleRequest)).1 = .error "Connection failed"
    ∧ insertedRows (EtlRouteDup.POST downSourceEnv (.ok sampleRequest)).2 = [] :=
  c1_extraction_failure_no_record downSourceEnv sampleRequest sampleBody "Connection failed" rfl rfl

/-! ## Claim C3 -/

/-- Every caller-visible outcome of the validated route is one of its
six literal response constructors. -/
theorem etlPOST_response_cases (env : Env) (raw : Except String Json) :
    (∃ sid e, (EtlRoute.POST env raw).1 = catchResp sid e)
    ∨ (∃ is, (EtlRoute.POST env raw).1 = validationFailedResponse is)
    ∨ (∃ m, (EtlRoute.POST env raw).1 = dbErrorResponse m)
    ∨ (EtlRoute.POST env raw).1 = noDataResponse
    ∨ (∃ id m, (EtlRoute.POST env raw).1 = dispatchErrorResponse id m)
    ∨ (∃ id, (EtlRoute.POST env raw).1 = successResponse id) := by
  unfold EtlRoute.POST
  split
  · exact Or.inl ⟨_, _, rfl⟩
  · split
    · exact Or.inr (Or.inl ⟨_, rfl⟩)
    · split
      · exact Or.inl ⟨_, _, rfl⟩
      · split
        · exact Or.inl ⟨_, _, rfl⟩
        · split
          · exact Or.inr (Or.inr (Or.inl ⟨_, rfl⟩))
          · exact Or.inr (Or.inr (Or.inr (Or.inl rfl)))
          · split
            · exact Or.inr (Or.inr (Or.inr (Or.inr (Or.inl ⟨_, _, rfl⟩))))
            · exact Or.inr (Or.inr (Or.inr (Or.inr (Or.inr ⟨_, rfl⟩))))

/-- Claim C3 (amended): in the validated implementation every error of
every stage is caught at a stage boundary and converted into a
structured JSON response (a `success` flag is always present and the
status is one of 200, 400, 422, 500); in the duplicate implementation,
errors raised by the extraction performed before the try block — and a
body-parse failure, which that extraction call hits first — propagate
out of the POST handler as unhandled faults. -/
theorem c3_every_error_structured (env : Env) (raw : Except String Json) :
    (EtlRoute.POST env raw).1.body.hasKey "success" = true
    ∧ ((EtlRoute.POST env raw).1.status = 200 ∨ (EtlRoute.POST env raw).1.status = 400
       ∨ (EtlRoute.POST env raw).1.status = 422 ∨ (EtlRoute.POST env raw).1.status = 500) := by
  rcases etlPOST_response_cases env raw with
    ⟨sid, e, h⟩ | ⟨is, h⟩ | ⟨m, h⟩ | h | ⟨id, m, h⟩ | ⟨id, h⟩ <;> rw [h] <;>
    simp [catchResp, validationFailedResponse, dbErrorResponse, noDataResponse,
          dispatchErrorResponse, successResponse, Json.hasKey]

/-- Claim C3 (counterexample): when the request body is not valid JSON,
the duplicate implementation's pre-try extraction call re-raises the
parse error before any catch is installed, and the error leaves the
POST handler as an unhandled fault instead of a structured response. -/
theorem c3_counterexample :
    (EtlRouteDup.POST happyEnv (.error "Unexpected token < in JSON")).1
      = .error "Unexpected token < in JSON"
    ∧ (EtlRouteDup.POST happyEnv (.error "Unexpected token < in JSON")).1
        ≠ .ok (catchResp .null "Invalid JSON in request body") := by
  refine ⟨rfl, ?_⟩
  intro h
  exact Except.noConfusion h

/-! ## Claim C2 -/

/-- Environment where everything succeeds except the workflow-dispatch
trigger. -/
def dispatchDownEnv : Env where
  showTables := fun _ _ => .ok ["events"]
  tableQuery := fun _ _ => .ok (.obj [])
  insert := fun _ => .ok "sync_1"
  dispatch := fun _ => .error "Bad credentials"

/-- Legacy-route environment: the insert succeeds, the dispatch `fetch`
resolves with `ok: false`. -/
def c2LegacyEnv : LegacyRoute.LegacyEnv where
  insert := fun _ => .ok "job_1"
  dispatchFetch := fun _ => .ok ⟨false, "Forbidden"⟩

/-- Claim C2 (amended): in the validated route, a dispatch failure
after a successful insert yields status 422 with `success: false`, the
created job id, error `GitHub API error` and the failure details, and
the created record is retained — the row was inserted and the pipeline
performs no delete. (The legacy route instead rethrows the dispatch
failure: status 500 with the job id and the message, no `details`
field; its record is likewise retained — see the counterexample.) -/
theorem c2_dispatch_failure_keeps_record (env : Env) (raw : Json) (body : ParsedBody)
    (data : List (String × Json)) (tbls : List String) (id m : String)
    (hp : safeParse raw = .ok body)
    (h1 : (EtlRoute.getTableData env 0 body.internal_credentials).1 = .ok data)
    (h2 : env.showTables 1 body.internal_credentials = .ok tbls)
    (hins : env.insert (EtlRoute.rowOf body) = .ok id)
    (hdis : env.dispatch (EtlRoute.payloadOf body data) = .error m) :
    (EtlRoute.POST env (.ok raw)).1 = dispatchErrorResponse id m
    ∧ insertedRows (EtlRoute.POST env (.ok raw)).2 = [EtlRoute.rowOf body]
    ∧ deletePerformed (EtlRoute.POST env (.ok raw)).2 = false := by
  have hOnly := onlySource_getTableData env 0 body.internal_credentials
  rcases hgt : EtlRoute.getTableData env 0 body.internal_credentials with ⟨r, a1⟩
  rw [hgt] at h1 hOnly
  simp only at h1
  subst h1
  refine ⟨?_, ?_, ?_⟩ <;>
    simp [EtlRoute.POST, EtlRoute.getAllTables, hp, hgt, h2, hins, hdis,
          insertedRows_append, deletePerformed_append, insertedRows, deletePerformed,
          insertedRows_of_onlySource _ hOnly, deletePerformed_of_onlySource _ hOnly]

/-- Claim C2 (counterexample): in the legacy sync route, a dispatch
failure after a successful insert is rethrown and caught by the outer
catch: the response has status 500 — not 422 — and carries no `details`
field, only `{success:false, syncId, error}`; the inserted record is
nevertheless retained. -/
theorem c2_counterexample :
    (LegacyRoute.POST c2LegacyEnv (.ok sampleRequest)).1
      = catchResp (.str "job_1") "Failed to send data to Bulker: Forbidden"
    ∧ (LegacyRoute.POST c2LegacyEnv (.ok sampleRequest)).1.status = 500
    ∧ (LegacyRoute.POST c2LegacyEnv (.ok sampleRequest)).1.body.hasKey "details" = false
    ∧ (LegacyRoute.legacyInsertedRows
        (LegacyRoute.POST c2LegacyEnv (.ok sampleRequest)).2).length = 1 :=
  ⟨rfl, rfl, rfl, rfl⟩

/-- Claim C2 (witness for the amended theorem). -/
theorem c2_witness :
    (EtlRoute.POST dispatchDownEnv (.ok sampleRequest)).1
      = dispatchErrorResponse "sync_1" "Bad credentials"
    ∧ insertedRows (EtlRoute.POST dispatchDownEnv (.ok sampleRequest)).2
      = [EtlRoute.rowOf sampleBody]
    ∧ deletePerformed (EtlRoute.POST dispatchDownEnv (.ok sampleRequest)).2 = false :=
  c2_dispatch_failure_keeps_record dispatchDownEnv sampleRequest sampleBody
    [("events", .obj [])] ["events"] "sync_1" "Bad credentials" rfl rfl rfl rfl rfl

/-! ## Claim C4 -/

/-- Legacy-route environment where the insert and the dispatch both
succeed. -/
def c4LegacyEnv : LegacyRoute.LegacyEnv where
  insert := fun _ => .ok "job_2"
  dispatchFetch := fun _ => .ok ⟨true, "OK"⟩

/-- Claim C4 (code bug, failing input): for the accepted request with
`link_type: "ClickHouse"`, the legacy sync route computes the
lower-cased `linkType` but then persists the raw `body.link_type`, so
the stored value is `"ClickHouse"`, not `"clickhouse"`; the validated
route in the main file persists `"clickhouse"` for the same request,
which is the documented intent. -/
theorem c4_code_bug_raw_link_type_persisted :
    (LegacyRoute.legacyInsertedRows (LegacyRoute.POST c4LegacyEnv (.ok sampleRequest)).2).map
        (fun r => r.link_type) = [some (.str "ClickHouse")]
    ∧ LegacyRoute.linkTypeOf sampleRequest = .ok "clickhouse"
    ∧ (insertedRows (EtlRoute.POST happyEnv (.ok sampleRequest)).2).map (fun r => r.link_type)
      = ["clickhouse"] :=
  ⟨rfl, rfl, rfl⟩

/-! ## Claim C5 -/

/-- A successfully validated body's `destination_config` is exactly the
result of the destination-config sub-schema on the raw body. -/
theorem destConfig_of_safeParse (raw : Json) (body : ParsedBody)
    (hp : safeParse raw = .ok body) :
    ∀ fs, raw = .obj fs → parseDestConfig fs = .ok body.destination_config := by
  unfold safeParse at hp
  split at hp
  · rename_i fs2
    split at hp
    · rename_i o w l c d h1 h2 h3 h4 h5
      split at hp
      · cases hp
        intro fs hobj
        cases hobj
        exact h5
      · exact absurd hp (by simp)
    · exact absurd hp (by simp)
  · exact absurd hp (by simp)

/-- When `destination_config.options` is absent, the sub-schema resolves
it to the default `{mode: "stream", batchSize: 10000}`. -/
theorem parseDestConfig_options_default (fs dc : List (String × Json)) (d : DestinationConfig)
    (hdc : jsLookup fs "destination_config" = some (.obj dc))
    (hnoopt : jsLookup dc "options" = none)
    (hd : parseDestConfig fs = .ok d) :
    d.options = ⟨"stream", 10000⟩ := by
  simp only [parseDestConfig, hdc] at hd
  rcases ht : parseStr ["destination_config"] dc "type" with e | t <;>
    rcases hc : parseRecord dc "credentials" with e2 | c <;>
    rcases ho : parseOptions dc with e3 | op <;>
    simp only [ht, hc, ho] at hd <;>
    try exact Except.noConfusion hd
  simp only [parseOptions, hnoopt] at ho
  split at hd
  · cases hd
    cases ho
    rfl
  · exact Except.noConfusion hd

/-- Shape of the validated route's external trace: some source queries,
possibly followed by the single insert of the row built from the
validated body, possibly followed by the dispatch of the payload built
from the extracted data. -/
theorem etlPOST_trace_shape (env : Env) (raw : Json) (body : ParsedBody)
    (hp : safeParse raw = .ok body) :
    ∃ src : List Action, onlySourceQueries src = true ∧
      ((EtlRoute.POST env (.ok raw)).2 = src
       ∨ (EtlRoute.POST env (.ok raw)).2 = src ++ [.dbInsert (EtlRoute.rowOf body)]
       ∨ ∃ data, (EtlRoute.POST env (.ok raw)).2
            = src ++ [.dbInsert (EtlRoute.rowOf body),
                      .workflowDispatch (EtlRoute.payloadOf body data)]
            ∧ (EtlRoute.getTableData env 0 body.internal_credentials).1 = .ok data) := by
  have hOnly1 := onlySource_getTableData env 0 body.internal_credentials
  rcases hgt : EtlRoute.getTableData env 0 body.internal_credentials with ⟨rd, a1⟩
  rw [hgt] at hOnly1
  rcases rd with e | data
  · exact ⟨a1, hOnly1, Or.inl (by simp [EtlRoute.POST, hp, hgt])⟩
  · have hsq : onlySourceQueries
        (a1 ++ [Action.sourceQuery body.internal_credentials "SHOW TABLES"]) = true := by
      simp [onlySourceQueries_append, hOnly1, onlySourceQueries]
    rcases hst : env.showTables 1 body.internal_credentials with e | tbls
    · exact ⟨a1 ++ [.sourceQuery body.internal_credentials "SHOW TABLES"], hsq,
        Or.inl (by simp [EtlRoute.POST, EtlRoute.getAllTables, hp, hgt, hst])⟩
    · rcases hins : env.insert (EtlRoute.rowOf body) with m | _ | id
      · exact ⟨a1 ++ [.sourceQuery body.internal_credentials "SHOW TABLES"], hsq,
          Or.inr (Or.inl (by simp [EtlRoute.POST, EtlRoute.getAllTables, hp, hgt, hst, hins]))⟩
      · exact ⟨a1 ++ [.sourceQuery body.internal_credentials "SHOW TABLES"], hsq,
          Or.inr (Or.inl (by simp [EtlRoute.POST, EtlRoute.getAllTables, hp, hgt, hst, hins]))⟩
      · rcases hdis : env.dispatch (EtlRoute.payloadOf body data) with m | u
        · exact ⟨a1 ++ [.sourceQuery body.internal_credentials "SHOW TABLES"], hsq,
            Or.inr (Or.inr ⟨data,
              by simp [EtlRoute.POST, EtlRoute.getAllTables, hp, hgt, hst, hins, hdis],
              by simp [hgt]⟩)⟩
        · exact ⟨a1 ++ [.sourceQuery body.internal_credentials "SHOW TABLES"], hsq,
            Or.inr (Or.inr ⟨data,
              by simp [EtlRoute.POST, EtlRoute.getAllTables, hp, hgt, hst, hins, hdis],
              by simp [hgt]⟩)⟩

/-- Claim C5: for every valid request whose `destination_config` has no
`options` field, the validated body resolves options to
`{mode:"stream", batchSize:10000}`, and every record the route persists
carries exactly those options. -/
theorem c5_options_default (env : Env) (fs dc : List (String × Json)) (body : ParsedBody)
    (hp : safeParse (.obj fs) = .ok body)
    (hdc : jsLookup fs "destination_config" = some (.obj dc))
    (hnoopt : jsLookup dc "options" = none) :
    body.destination_config.options = ⟨"stream", 10000⟩
    ∧ ∀ r ∈ insertedRows (EtlRoute.POST env (.ok (.obj fs))).2,
        r.destination_config.options = ⟨"stream", 10000⟩ := by
  have hopt := parseDestConfig_options_default fs dc body.destination_config hdc hnoopt
    (destConfig_of_safeParse (.obj fs) body hp fs rfl)
  refine ⟨hopt, ?_⟩
  intro r hr
  rcases etlPOST_trace_shape env (.obj fs) body hp with ⟨src, hsrc, h | h | ⟨data, h, _⟩⟩ <;>
    rw [h] at hr <;>
    simp [insertedRows_append, insertedRows_of_onlySource _ hsrc, insertedRows] at hr
  · rw [hr, EtlRoute.rowOf]
    exact hopt
  · rw [hr, EtlRoute.rowOf]
    exact hopt

/-- Claim C5 (witness): the sample request has no
`destination_config.options`; with every collaborator succeeding, the
persisted row's options are the defaults. -/
theorem c5_witness :
    sampleBody.destination_config.options = ⟨"stream", 10000⟩
    ∧ ∀ r ∈ insertedRows (EtlRoute.POST happyEnv (.ok sampleRequest)).2,
        r.destination_config.options = ⟨"stream", 10000⟩ :=
  c5_options_default happyEnv
    [("organization", .str "org_1"), ("internal_warehouse", .str "wh_1"),
     ("link_type", .str "ClickHouse"), ("internal_credentials", sampleCredentials),
     ("destination_config", sampleDestConfig)]
    [("type", .str "warehouse"), ("credentials", .obj [("dest", .str "x")])]
    sampleBody rfl rfl rfl

/-! ## Claim C6 -/

/-- `batchSize` present but not a number always fails the options
schema. -/
theorem parseBatchSize_err (opts : List (String × Json)) (v : Json)
    (hbs : jsLookup opts "batchSize" = some v) (hv : ∀ q, v ≠ .num q) :
    ∃ i, parseBatchSize opts = .error i := by
  simp only [parseBatchSize, hbs]
  cases v with
  | num q => exact absurd rfl (hv q)
  | null => exact ⟨_, rfl⟩
  | bool b => exact ⟨_, rfl⟩
  | str s => exact ⟨_, rfl⟩
  | arr xs => exact ⟨_, rfl⟩
  | obj o => exact ⟨_, rfl⟩

theorem parseOptions_err (dc opts : List (String × Json)) (v : Json)
    (hopts : jsLookup dc "options" = some (.obj opts))
    (hbs : jsLookup opts "batchSize" = some v) (hv : ∀ q, v ≠ .num q) :
    ∃ is, parseOptions dc = .error is := by
  obtain ⟨i, hi⟩ := parseBatchSize_err opts v hbs hv
  simp only [parseOptions, hopts]
  rcases hm : parseMode opts with e | m <;> simp only [hm, hi] <;> exact ⟨_, rfl⟩

theorem parseDestConfig_err (fs dc opts : List (String × Json)) (v : Json)
    (hdc : jsLookup fs "destination_config" = some (.obj dc))
    (hopts : jsLookup dc "options" = some (.obj opts))
    (hbs : jsLookup opts "batchSize" = some v) (hv : ∀ q, v ≠ .num q) :
    ∃ is, parseDestConfig fs = .error is := by
  obtain ⟨is, ho⟩ := parseOptions_err dc opts v hopts hbs hv
  simp only [parseDestConfig, hdc]
  rcases ht : parseStr ["destination_config"] dc "type" with e | t <;>
    rcases hc : parseRecord dc "credentials" with e2 | c <;>
    simp only [ht, hc, ho] <;> exact ⟨_, rfl⟩

theorem safeParse_err_of_destConfig (fs : List (String × Json))
    (h : ∃ is, parseDestConfig fs = .error is) :
    ∃ is, safeParse (.obj fs) = .error is := by
  obtain ⟨is, hd⟩ := h
  unfold safeParse
  rcases h1 : parseStr1 fs "organization" with e1 | o <;>
    rcases h2 : parseStr1 fs "internal_warehouse" with e2 | w <;>
    rcases h3 : parseStr1 fs "link_type" with e3 | l <;>
    rcases h4 : parseRecord fs "internal_credentials" with e4 | c <;>
    simp only [h1, h2, h3, h4, hd] <;> exact ⟨_, rfl⟩

/-- Claim C6 (amended): the validator rejects a present
`destination_config.options.batchSize` only when it is not a number —
the request then fails with the validation response and no external
action, in particular no job record — but any numeric value, including
zero, negative and fractional ones, is accepted (see the
counterexample). -/
theorem c6_batchSize_only_number_checked (env : Env) (fs dc opts : List (String × Json)) (v : Json)
    (hdc : jsLookup fs "destination_config" = some (.obj dc))
    (hopts : jsLookup dc "options" = some (.obj opts))
    (hbs : jsLookup opts "batchSize" = some v)
    (hv : ∀ q, v ≠ .num q) :
    (∃ is, (EtlRoute.POST env (.ok (.obj fs))).1 = validationFailedResponse is)
    ∧ (EtlRoute.POST env (.ok (.obj fs))).2 = [] := by
  obtain ⟨is, hsp⟩ := safeParse_err_of_destConfig fs
    (parseDestConfig_err fs dc opts v hdc hopts hbs hv)
  refine ⟨⟨is, ?_⟩, ?_⟩ <;> simp [EtlRoute.POST, hsp]

/-- A request whose `options.batchSize` is the number 0 — not a
positive integer. -/
def c6Request : Json :=
  .obj [("organization", .str "org_1"), ("internal_warehouse", .str "wh_1"),
        ("link_type", .str "clickhouse"), ("internal_credentials", sampleCredentials),
        ("destination_config",
          .obj [("type", .str "warehouse"), ("credentials", .obj []),
                ("options", .obj [("mode", .str "stream"), ("batchSize", .num 0)])])]

/-- The same request with a non-numeric `batchSize`, for the witness. -/
def c6BadRequest : Json :=
  .obj [("organization", .str "org_1"), ("internal_warehouse", .str "wh_1"),
        ("link_type", .str "clickhouse"), ("internal_credentials", sampleCredentials),
        ("destination_config",
          .obj [("type", .str "warehouse"), ("credentials", .obj []),
                ("options", .obj [("mode", .str "stream"), ("batchSize", .str "lots")])])]

/-- Claim C6 (counterexample): `batchSize: 0` is not a positive
integer, yet the request passes validation, a job record is created
with `batchSize 0`, and the endpoint answers success — the validator
only requires `z.number()`. -/
theorem c6_counterexample :
    (EtlRoute.POST happyEnv (.ok c6Request)).1 = successResponse "sync_1"
    ∧ (insertedRows (EtlRoute.POST happyEnv (.ok c6Request)).2).map
        (fun r => r.destination_config.options.batchSize) = [0] :=
  ⟨rfl, rfl⟩

/-- Claim C6 (witness for the amended theorem): a string-valued
`batchSize` is rejected with a validation failure and no external
action. -/
theorem c6_witness :
    (∃ is, (EtlRoute.POST happyEnv (.ok c6BadRequest)).1 = validationFailedResponse is)
    ∧ (EtlRoute.POST happyEnv (.ok c6BadRequest)).2 = [] :=
  c6_batchSize_only_number_checked happyEnv
    [("organization", .str "org_1"), ("internal_warehouse", .str "wh_1"),
     ("link_type", .str "clickhouse"), ("internal_credentials", sampleCredentials),
     ("destination_config",
       .obj [("type", .str "warehouse"), ("credentials", .obj []),
             ("options", .obj [("mode", .str "stream"), ("batchSize", .str "lots")])])]
    [("type", .str "warehouse"), ("credentials", .obj []),
     ("options", .obj [("mode", .str "stream"), ("batchSize", .str "lots")])]
    [("mode", .str "stream"), ("batchSize", .str "lots")]
    (.str "lots") rfl rfl rfl (fun _ h => Json.noConfusion h)

/-! ## Claim C7 -/

/-- The first external action of the extraction stage is always the
`SHOW TABLES` query against the source built from the given
credentials. -/
theorem getTableData_trace_cons (env : Env) (call : Nat) (creds : Json) :
    ∃ rest, (EtlRoute.getTableData env call creds).2
      = Action.sourceQuery creds "SHOW TABLES" :: rest := by
  simp only [EtlRoute.getTableData, EtlRoute.getAllTables]
  cases hs : env.showTables call creds with
  | error e => exact ⟨[], rfl⟩
  | ok tables =>
      rcases hf : EtlRoute.fetchAllTables env creds tables [] with ⟨r, b⟩
      exact ⟨b, by simp [hf]⟩

/-- Claim C7 (amended): the repository's per-link-type registry of
required credential fields (`validateCredentials`, used by the
source-creation endpoint) does reject credentials missing a required
field, but the sync pipeline never consults it: even for a request
whose credentials the registry rejects, the handler's very first
external action is the `SHOW TABLES` connection to the source, so a
malformed credential surfaces as a connection or query failure, not as
a credential-shape error. -/
theorem c7_no_shape_check_before_connection (env : Env) (raw : Json) (body : ParsedBody)
    (hp : safeParse raw = .ok body)
    (_hv : SourcesRoute.validateCredentials (.str body.link_type) body.internal_credentials
            = .ok false) :
    (EtlRoute.POST env (.ok raw)).2.head?
      = some (.sourceQuery body.internal_credentials "SHOW TABLES") := by
  obtain ⟨rest, hcons⟩ := getTableData_trace_cons env 0 body.internal_credentials
  rcases hgt : EtlRoute.getTableData env 0 body.internal_credentials with ⟨rd, a1⟩
  rw [hgt] at hcons
  simp only at hcons
  subst hcons
  rcases rd with e | data
  · simp [EtlRoute.POST, hp, hgt]
  · rcases hst : env.showTables 1 body.internal_credentials with e | tbls
    · simp [EtlRoute.POST, EtlRoute.getAllTables, hp, hgt, hst]
    · rcases hins : env.insert (EtlRoute.rowOf body) with m | _ | id
      · simp [EtlRoute.POST, EtlRoute.getAllTables, hp, hgt, hst, hins]
      · simp [EtlRoute.POST, EtlRoute.getAllTables, hp, hgt, hst, hins]
      · rcases hdis : env.dispatch (EtlRoute.payloadOf body data) with m | u <;>
          simp [EtlRoute.POST, EtlRoute.getAllTables, hp, hgt, hst, hins, hdis]

/-- A valid request whose `internal_credentials` object is empty —
missing every field the registry requires for `clickhouse`. -/
def c7Request : Json :=
  .obj [("organization", .str "org_1"), ("internal_warehouse", .str "wh_1"),
        ("link_type", .str "clickhouse"), ("internal_credentials", .obj []),
        ("destination_config", sampleDestConfig)]

def c7Body : ParsedBody :=
  ⟨"org_1", "wh_1", "clickhouse", .obj [],
   ⟨"warehouse", .obj [("dest", .str "x")], ⟨"stream", 10000⟩⟩⟩

/-- Claim C7 (counterexample): with credentials the registry rejects
(empty object, every required `clickhouse` field missing), the sync
endpoint still queries the source — the trace contains a source query —
and the failure reported is the source connection error, not a
credential-shape error. -/
theorem c7_counterexample :
    SourcesRoute.validateCredentials (.str "clickhouse") (.obj []) = .ok false
    ∧ (EtlRoute.POST downSourceEnv (.ok c7Request)).1 = catchResp .null "Connection failed"
    ∧ sourceQueried (EtlRoute.POST downSourceEnv (.ok c7Request)).2 = true :=
  ⟨rfl, rfl, rfl⟩

/-- Claim C7 (witness for the amended theorem). -/
theorem c7_witness :
    (EtlRoute.POST downSourceEnv (.ok c7Request)).2.head?
      = some (.sourceQuery (.obj []) "SHOW TABLES") :=
  c7_no_shape_check_before_connection downSourceEnv c7Request c7Body rfl rfl

/-! ## Claim C8 -/

/-- Environment whose source exposes zero tables and whose job store
and dispatcher succeed. -/
def emptySourceEnv : Env where
  showTables := fun _ _ => .ok []
  tableQuery := fun _ _ => .error "no table should be queried"
  insert := fun _ => .ok "sync_9"
  dispatch := fun _ => .ok ()

/-- Claim C8: when introspection reports zero tables, the pipeline does
not fail: the record is created, the dispatch is attempted with the
empty snapshot (serialized as the empty JSON object), and the endpoint
answers success with the job id. -/
theorem c8_zero_tables_succeeds (env : Env) (raw : Json) (body : ParsedBody) (id : String)
    (hp : safeParse raw = .ok body)
    (hshow : ∀ n, env.showTables n body.internal_credentials = .ok [])
    (hins : env.insert (EtlRoute.rowOf body) = .ok id)
    (hdis : env.dispatch (EtlRoute.payloadOf body []) = .ok ()) :
    (EtlRoute.POST env (.ok raw)).1 = successResponse id
    ∧ insertedRows (EtlRoute.POST env (.ok raw)).2 = [EtlRoute.rowOf body]
    ∧ dispatchedPayloads (EtlRoute.POST env (.ok raw)).2 = [EtlRoute.payloadOf body []]
    ∧ (EtlRoute.payloadOf body []).data = "\x7b\x7d" := by
  have hgt : EtlRoute.getTableData env 0 body.internal_credentials
      = (.ok [], [.sourceQuery body.internal_credentials "SHOW TABLES"]) := by
    simp [EtlRoute.getTableData, EtlRoute.getAllTables, EtlRoute.fetchAllTables, hshow]
  refine ⟨?_, ?_, ?_, rfl⟩ <;>
    simp [EtlRoute.POST, EtlRoute.getAllTables, hp, hgt, hshow, hins, hdis,
          insertedRows_append, dispatchedPayloads_append, insertedRows, dispatchedPayloads]

/-- Claim C8 (witness): the sample request against a zero-table source. -/
theorem c8_witness :
    (EtlRoute.POST emptySourceEnv (.ok sampleRequest)).1 = successResponse "sync_9"
    ∧ insertedRows (EtlRoute.POST emptySourceEnv (.ok sampleRequest)).2
      = [EtlRoute.rowOf sampleBody]
    ∧ dispatchedPayloads (EtlRoute.POST emptySourceEnv (.ok sampleRequest)).2
      = [EtlRoute.payloadOf sampleBody []]
    ∧ (EtlRoute.payloadOf sampleBody []).data = "\x7b\x7d" :=
  c8_zero_tables_succeeds emptySourceEnv sampleRequest sampleBody "sync_9"
    rfl (fun _ => rfl) rfl rfl

/-! ## Claim C9 -/

/-- Environment whose insert reports neither an error nor a created
row. -/
def noDataEnv : Env where
  showTables := fun _ _ => .ok ["events"]
  tableQuery := fun _ _ => .ok (.obj [])
  insert := fun _ => .noData
  dispatch := fun _ => .ok ()

/-- Claim C9: when the job-store insert reports no error but returns no
row, the endpoint responds status 500 with `success: false` and error
`Failed to create sync record: No data returned`; the response body has
no `syncId` field at all, and no dispatch is attempted — an outcome
distinct from both the storage-error and the success responses. -/
theorem c9_insert_returns_no_row (env : Env) (raw : Json) (body : ParsedBody)
    (data : List (String × Json)) (tbls : List String)
    (hp : safeParse raw = .ok body)
    (h1 : (EtlRoute.getTableData env 0 body.internal_credentials).1 = .ok data)
    (h2 : env.showTables 1 body.internal_credentials = .ok tbls)
    (hins : env.insert (EtlRoute.rowOf body) = .noData) :
    (EtlRoute.POST env (.ok raw)).1 = noDataResponse
    ∧ (EtlRoute.POST env (.ok raw)).1.status = 500
    ∧ (EtlRoute.POST env (.ok raw)).1.body.hasKey "syncId" = false
    ∧ dispatchedPayloads (EtlRoute.POST env (.ok raw)).2 = [] := by
  have hOnly := onlySource_getTableData env 0 body.internal_credentials
  rcases hgt : EtlRoute.getTableData env 0 body.internal_credentials with ⟨r, a1⟩
  rw [hgt] at h1 hOnly
  simp only at h1
  subst h1
  refine ⟨?_, ?_, ?_, ?_⟩ <;>
    simp [EtlRoute.POST, EtlRoute.getAllTables, hp, hgt, h2, hins,
          dispatchedPayloads_append, dispatchedPayloads,
          dispatchedPayloads_of_onlySource _ hOnly,
          noDataResponse, Json.hasKey]

/-- Claim C9 (witness). -/
theorem c9_witness :
    (EtlRoute.POST noDataEnv (.ok sampleRequest)).1 = noDataResponse
    ∧ (EtlRoute.POST noDataEnv (.ok sampleRequest)).1.status = 500
    ∧ (EtlRoute.POST noDataEnv (.ok sampleRequest)).1.body.hasKey "syncId" = false
    ∧ dispatchedPayloads (EtlRoute.POST noDataEnv (.ok sampleRequest)).2 = [] :=
  c9_insert_returns_no_row noDataEnv sampleRequest sampleBody
    [("events", .obj [])] ["events"] rfl rfl rfl rfl

/-! ## Claim C10 -/

theorem workflowDispatch_not_mem_of_onlySource (tr : List Action)
    (h : onlySourceQueries tr = true) (p : DispatchPayload) :
    Action.workflowDispatch p ∉ tr := by
  induction tr with
  | nil => simp
  | cons x xs ih =>
      cases x <;> simp_all [onlySourceQueries]

/-- The alternative environment of the C10 witness: identical to
`happyEnv` except that the handler's second `SHOW TABLES` call sees an
extra table. -/
def happyEnvAlt : Env where
  showTables := fun n c => if n = 1 then .ok ["events", "extra"] else happyEnv.showTables n c
  tableQuery := happyEnv.tableQuery
  insert := happyEnv.insert
  dispatch := happyEnv.dispatch

/-- Table extraction only depends on the per-table query oracle and the
first introspection call. -/
theorem fetchAllTables_congr (env env' : Env) (hq : env'.tableQuery = env.tableQuery)
    (creds : Json) :
    ∀ (ts : List String) (acc : List (String × Json)),
      EtlRoute.fetchAllTables env' creds ts acc = EtlRoute.fetchAllTables env creds ts acc := by
  intro ts
  induction ts with
  | nil => intro acc; rfl
  | cons t ts ih =>
      intro acc
      simp only [EtlRoute.fetchAllTables, hq, ih]

theorem getTableData_congr (env env' : Env)
    (h0 : env'.showTables 0 = env.showTables 0) (hq : env'.tableQuery = env.tableQuery)
    (creds : Json) :
    EtlRoute.getTableData env' 0 creds = EtlRoute.getTableData env 0 creds := by
  simp only [EtlRoute.getTableData, EtlRoute.getAllTables, h0,
             fetchAllTables_congr env env' hq creds]

/-- Claim C10: whenever the dispatch is attempted, the payload sent to
the workflow trigger is built from the snapshot `getTableData` returned
for the validated credentials — its `data` field is exactly the JSON
serialization of that mapping and its `org_id` the request's
organization; and the result of the handler's second, separate
`getAllTables` call is dead: as long as that second introspection
succeeds, its value has no effect on the response or on any performed
action. -/
theorem c10_payload_is_snapshot_and_second_introspection_dead
    (env env' : Env) (raw : Json) (body : ParsedBody) (p : DispatchPayload)
    (hp : safeParse raw = .ok body)
    (hdisp : Action.workflowDispatch p ∈ (EtlRoute.POST env (.ok raw)).2) :
    (∃ data, (EtlRoute.getTableData env 0 body.internal_credentials).1 = .ok data
       ∧ p = EtlRoute.payloadOf body data
       ∧ p.data = Json.stringify (.obj data) ∧ p.org_id = body.organization)
    ∧ (∀ ts ts', env'.showTables 0 = env.showTables 0 → env'.tableQuery = env.tableQuery →
       env'.insert = env.insert → env'.dispatch = env.dispatch →
       env.showTables 1 body.internal_credentials = .ok ts →
       env'.showTables 1 body.internal_credentials = .ok ts' →
       EtlRoute.POST env' (.ok raw) = EtlRoute.POST env (.ok raw)) := by
  constructor
  · rcases etlPOST_trace_shape env raw body hp with ⟨src, hsrc, h | h | ⟨data, h, hdata⟩⟩
    · rw [h] at hdisp
      exact absurd hdisp (workflowDispatch_not_mem_of_onlySource src hsrc p)
    · rw [h] at hdisp
      rcases List.mem_append.mp hdisp with h1 | h2
      · exact absurd h1 (workflowDispatch_not_mem_of_onlySource src hsrc p)
      · cases h2 with
        | tail _ h3 => cases h3
    · rw [h] at hdisp
      rcases List.mem_append.mp hdisp with h1 | h2
      · exact absurd h1 (workflowDispatch_not_mem_of_onlySource src hsrc p)
      · cases h2 with
        | tail _ h3 =>
            cases h3 with
            | head => exact ⟨data, hdata, rfl, rfl, rfl⟩
            | tail _ h4 => cases h4
  · intro ts ts' h0 hq hi hd hts hts'
    have hg := getTableData_congr env env' h0 hq body.internal_credentials
    rcases hgt : EtlRoute.getTableData env 0 body.internal_credentials with ⟨rd, a1⟩
    rcases rd with e | data
    · simp [EtlRoute.POST, hp, hg, hgt]
    · rcases hins : env.insert (EtlRoute.rowOf body) with m | _ | id <;>
        rcases hdis : env.dispatch (EtlRoute.payloadOf body data) with m2 | u2 <;>
        simp [EtlRoute.POST, EtlRoute.getAllTables, hp, hg, hgt, hts, hts', hi, hd, hins, hdis]

/-- Claim C10 (witness): in the all-success environment the dispatched
payload serializes the one-empty-table snapshot, and replacing the
second introspection's (successful) answer changes nothing. -/
theorem c10_witness :
    (∃ data,
        (EtlRoute.getTableData happyEnv 0 sampleBody.internal_credentials).1 = .ok data
        ∧ EtlRoute.payloadOf sampleBody [("events", .obj [])] = EtlRoute.payloadOf sampleBody data
        ∧ (EtlRoute.payloadOf sampleBody [("events", .obj [])]).data
            = Json.stringify (.obj data)
        ∧ (EtlRoute.payloadOf sampleBody [("events", .obj [])]).org_id
            = sampleBody.organization)
    ∧ EtlRoute.POST happyEnvAlt (.ok sampleRequest) = EtlRoute.POST happyEnv (.ok sampleRequest) := by
  have h := c10_payload_is_snapshot_and_second_introspection_dead happyEnv happyEnvAlt
    sampleRequest sampleBody (EtlRoute.payloadOf sampleBody [("events", .obj [])]) rfl
    (by
      have htr : (EtlRoute.POST happyEnv (.ok sampleRequest)).2
          = [Action.sourceQuery sampleCredentials "SHOW TABLES",
             Action.sourceQuery sampleCredentials (selectQuery "events"),
             Action.sourceQuery sampleCredentials "SHOW TABLES",
             Action.dbInsert (EtlRoute.rowOf sampleBody),
             Action.workflowDispatch (EtlRoute.payloadOf sampleBody [("events", .obj [])])] := rfl
      rw [htr]
      exact List.mem_cons_of_mem _ (List.mem_cons_of_mem _ (List.mem_cons_of_mem _
        (List.mem_cons_of_mem _ (List.mem_cons_self _ _)))))
  exact ⟨h.1, h.2 ["events"] ["events", "extra"] rfl rfl rfl rfl rfl rfl⟩

end Portcullis
